import Mathlib

/-!
Verification of the domain data model of a social-media web client scaffold.

The repository's substantive content is `src/types/index.ts`: a catalogue of
record shapes (user, post, comment, message, conversation, notification, API
envelopes, forms, search filters) with no attached behavior, plus the stock
Vite/React application shell whose only behavior is a counter button.

This file shallowly embeds those record shapes as Lean structures, translated
field by field from the TypeScript interfaces (TS `string` becomes `String`,
`string[]` becomes `List String`, optional `field?` becomes `Option`, the
union-of-string-literal tag types become inductive enumerations, `Date` becomes
an opaque millisecond timestamp record, and TS `number` becomes `Int`, except
for pagination metadata, which the design document describes as counts and is
therefore embedded as `Nat`).

The repository declares the record shapes only: no constructor, validator, or
any other executable logic over them exists in the source.  The design
document's invariant table is therefore the sole authority for record validity,
and each validity check below is an executable boolean definition modelled from
the specification's words, marked `Modelled from the spec:` in its doc comment.
The theorems relate these executable checks to the declaratively stated
invariants and settle the claimed consequences.
-/

namespace SocialApp

/-- Embeds the TypeScript `Date` values used for `createdAt` / `updatedAt`
fields: an opaque point-in-time value, carried as a millisecond timestamp. -/
structure Date where
  ms : Int
deriving DecidableEq

/-- Embeds the union type `'text' | 'image' | 'file'` of `Message.type`
(`src/types/index.ts` line 53). -/
inductive MessageType where
  | text
  | image
  | file
deriving DecidableEq

/-- The string literal tag each `MessageType` alternative stands for in the
source union type. -/
def MessageType.toTag : MessageType → String
  | .text => "text"
  | .image => "image"
  | .file => "file"

/-- Embeds the union type `'like' | 'comment' | 'follow' | 'mention' |
'message'` of `Notification.type` (`src/types/index.ts` line 75). -/
inductive NotificationType where
  | like
  | comment
  | follow
  | mention
  | message
deriving DecidableEq

/-- The string literal tag each `NotificationType` alternative stands for in
the source union type. -/
def NotificationType.toTag : NotificationType → String
  | .like => "like"
  | .comment => "comment"
  | .follow => "follow"
  | .mention => "mention"
  | .message => "message"

/-- Embeds the union type `'users' | 'posts' | 'all'` of `SearchFilters.type`
(`src/types/index.ts` line 127). -/
inductive SearchType where
  | users
  | posts
  | all
deriving DecidableEq

/-- The string literal tag each `SearchType` alternative stands for in the
source union type. -/
def SearchType.toTag : SearchType → String
  | .users => "users"
  | .posts => "posts"
  | .all => "all"

/-- Embeds the union type `'recent' | 'popular' | 'relevance'` of
`SearchFilters.sortBy` (`src/types/index.ts` line 128). -/
inductive SortBy where
  | recent
  | popular
  | relevance
deriving DecidableEq

/-- The string literal tag each `SortBy` alternative stands for in the source
union type. -/
def SortBy.toTag : SortBy → String
  | .recent => "recent"
  | .popular => "popular"
  | .relevance => "relevance"

/-- Embeds `interface User` (`src/types/index.ts` lines 2-18).  The optional
TypeScript fields `bio?`, `avatar?`, `coverImage?`, `location?`, `website?`
become `Option String`; all other fields are required. -/
structure User where
  id : String
  username : String
  email : String
  firstName : String
  lastName : String
  bio : Option String
  avatar : Option String
  coverImage : Option String
  followers : List String
  following : List String
  createdAt : Date
  updatedAt : Date
  isVerified : Bool
  location : Option String
  website : Option String
deriving DecidableEq

/-- Embeds `interface Comment` (`src/types/index.ts` lines 36-45).  The
optional `parentId?` field, used for nested replies, becomes
`Option String`. -/
structure Comment where
  id : String
  postId : String
  authorId : String
  content : String
  likes : List String
  createdAt : Date
  updatedAt : Date
  parentId : Option String
deriving DecidableEq

/-- Embeds `interface Post` (`src/types/index.ts` lines 21-33).  The TS
`number` field `shares` becomes `Int`; optional `images?` and `tags?` become
`Option`. -/
structure Post where
  id : String
  authorId : String
  content : String
  images : Option (List String)
  likes : List String
  comments : List Comment
  shares : Int
  createdAt : Date
  updatedAt : Date
  isPublic : Bool
  tags : Option (List String)
deriving DecidableEq

/-- Embeds `interface Message` (`src/types/index.ts` lines 48-57). -/
structure Message where
  id : String
  senderId : String
  receiverId : String
  content : String
  type : MessageType
  isRead : Bool
  createdAt : Date
  attachments : Option (List String)
deriving DecidableEq

/-- Embeds `interface Conversation` (`src/types/index.ts` lines 60-69). -/
structure Conversation where
  id : String
  participants : List String
  lastMessage : Option Message
  createdAt : Date
  updatedAt : Date
  isGroup : Bool
  groupName : Option String
  groupImage : Option String
deriving DecidableEq

/-- Embeds `interface Notification` (`src/types/index.ts` lines 72-81). -/
structure Notification where
  id : String
  userId : String
  type : NotificationType
  fromUserId : String
  postId : Option String
  messageId : Option String
  isRead : Bool
  createdAt : Date
deriving DecidableEq

/-- Embeds the generic `interface ApiResponse<T>` (`src/types/index.ts` lines
84-89): success flag, optional payload, optional error text, optional
message. -/
structure ApiResponse (α : Type) where
  success : Bool
  data : Option α
  error : Option String
  message : Option String

/-- Embeds the nested `pagination` object of `interface PaginatedResponse<T>`
(`src/types/index.ts` lines 94-99).  The design document describes the four
fields as counts (current page, page size, total item count, total page
count), so they are embedded as `Nat`. -/
structure Pagination where
  page : Nat
  limit : Nat
  total : Nat
  totalPages : Nat
deriving DecidableEq

/-- Embeds the generic `interface PaginatedResponse<T>` (`src/types/index.ts`
lines 92-100). -/
structure PaginatedResponse (α : Type) where
  data : List α
  pagination : Pagination

/-- Embeds `interface SearchFilters` (`src/types/index.ts` lines 125-129). -/
structure SearchFilters where
  query : String
  type : SearchType
  sortBy : SortBy
deriving DecidableEq

/-! ### The template counter (`App.tsx`)

The application shell's only behavior: `const [count, setCount] = useState(0)`
and the button handler `onClick={() => setCount((count) => count + 1)}`. -/

/-- The initial counter state, from `useState(0)` in the `App` component. -/
def initialCount : Int := 0

/-- The counter button's functional state update `(count) => count + 1` in the
`App` component. -/
def increment (count : Int) : Int := count + 1

/-- The counter state after `k` button clicks starting from the initial
state. -/
def countAfter : Nat → Int
  | 0 => initialCount
  | k + 1 => increment (countAfter k)

/-! ### Validity checks modelled from the specification

The source declares only the record shapes; no constructor or validator exists
anywhere in the repository.  Each boolean check below is therefore modelled
from the design document's invariant table (spec §3) and boundary-shape
list (spec §3, supporting shapes). -/

/-- Ceiling division on counts: `ceilDiv total limit` is `⌈total / limit⌉`
when `limit > 0`. -/
def ceilDiv (a b : Nat) : Nat := (a + b - 1) / b

/-- Modelled from the spec: no validator exists in the source, so this is the
paginated-result invariant of spec §3, "totalPages = ceil(total / limit)` and
`0 ≤ page ≤ totalPages`", as an executable check on pagination metadata (the
lower bound `0 ≤ page` holds by the `Nat` embedding). -/
def validPaginationB (p : Pagination) : Bool :=
  (p.totalPages == ceilDiv p.total p.limit) && (p.page ≤ p.totalPages)

/-- Modelled from the spec: validity of a full paginated result is validity of
its pagination metadata (spec §3 states no constraint on the item list). -/
def validPaginatedB {α : Type} (r : PaginatedResponse α) : Bool :=
  validPaginationB r.pagination

/-- Modelled from the spec: no validator exists in the source, so this is the
Conversation invariant of spec §3, "participant list non-empty; if group flag
is false, participant count is exactly 2", as an executable check. -/
def validConversationB (c : Conversation) : Bool :=
  !c.participants.isEmpty && (c.isGroup || c.participants.length == 2)

/-- Modelled from the spec: no validator exists in the source, so this is the
Message invariant of spec §3, "sender id ≠ receiver id", as an executable
check. -/
def validMessageB (m : Message) : Bool :=
  m.senderId != m.receiverId

/-- Modelled from the spec: no validator exists in the source, so this is the
Notification invariant of spec §3, "recipient id ≠ triggering user id", as an
executable check. -/
def validNotificationB (n : Notification) : Bool :=
  n.userId != n.fromUserId

/-- Modelled from the spec: no validator exists in the source, so this is the
Post invariant of spec §3, "share count ≥ 0; like-list entries unique per
post", as an executable check. -/
def validPostB (p : Post) : Bool :=
  decide (0 ≤ p.shares) && decide p.likes.Nodup

/-- Modelled from the spec: no validator exists in the source, so this is the
User invariant of spec §3, "a user's id must not appear in its own followers
or following list", as an executable check. -/
def validUserB (u : User) : Bool :=
  decide (u.id ∉ u.followers) && decide (u.id ∉ u.following)

/-- Modelled from the spec: no validator exists in the source, so this is the
result-envelope invariant of spec §3, "exactly one of payload/error is
meaningfully populated", as an executable check. -/
def validApiResponseB {α : Type} (r : ApiResponse α) : Bool :=
  Bool.xor r.data.isSome r.error.isSome

/-! ### Comment reply chains

A post's comments form a reply tree through the optional `parentId` field.
Following the parent links is embedded as a fuelled walk over the post's
comment list; the acyclicity invariant of spec §3 ("a comment must not be its
own ancestor") is modelled as an executable check, and the theorems show it
makes every walk duplicate-free, bounded by the comment count, and stable once
the fuel reaches the comment count. -/

/-- Find the comment with the given id in a post's comment list. -/
def lookup (cs : List Comment) (i : String) : Option Comment :=
  cs.find? (fun c => c.id == i)

/-- The fuelled parent-link walk: starting from comment id `i`, list the ids
visited by repeatedly following `parentId`, giving up when the fuel runs out,
when the id is not present, or when a comment has no parent. -/
def chain (cs : List Comment) : Nat → String → List String
  | 0, _ => []
  | fuel + 1, i =>
    match lookup cs i with
    | none => []
    | some c =>
      match c.parentId with
      | none => [i]
      | some p => i :: chain cs fuel p

/-- Modelled from the spec: no validator exists in the source, so this is the
Comment invariant of spec §3, "a comment must not be its own ancestor (no
cycles in the parent chain)", as an executable check: no comment's id occurs
on the walk from its own parent. -/
def selfAncestorFreeB (cs : List Comment) : Bool :=
  cs.all fun c =>
    match c.parentId with
    | none => true
    | some p => decide (c.id ∉ chain cs (cs.length + 1) p)

/-! ### Concrete records used to instantiate the theorems -/

/-- A concrete timestamp used by the sample records. -/
def epoch : Date := ⟨0⟩

/-- A user record built from the required fields only, with every optional
field (`bio`, `avatar`, `coverImage`, `location`, `website`) absent. -/
def User.minimal (id username email firstName lastName : String)
    (followers following : List String) (createdAt updatedAt : Date)
    (isVerified : Bool) : User :=
  ⟨id, username, email, firstName, lastName, none, none, none,
    followers, following, createdAt, updatedAt, isVerified, none, none⟩

/-- A message whose sender and receiver coincide; rejected by the
spec-modelled Message check. -/
def selfMessage : Message :=
  ⟨"m1", "u1", "u1", "hi", .text, false, epoch, none⟩

/-- A notification whose recipient and triggering user coincide; rejected by
the spec-modelled Notification check. -/
def selfNotification : Notification :=
  ⟨"n1", "u1", .like, "u1", none, none, false, epoch⟩

/-- A group conversation with a single participant: it passes the
spec-modelled Conversation check, yet has fewer than two participants. -/
def groupOfOne : Conversation :=
  ⟨"conv1", ["u1"], none, epoch, epoch, true, some "solo group", none⟩

/-- A paginated response whose metadata matches the spec's worked example
(`total = 95`, `limit = 20`, `totalPages = 5`) at page 0. -/
def samplePage : PaginatedResponse Nat := ⟨[], ⟨0, 20, 95, 5⟩⟩

/-- A root comment of the sample reply chain. -/
def comment1 : Comment := ⟨"c1", "p1", "u1", "first", [], epoch, epoch, none⟩

/-- A reply to `comment1` in the sample reply chain. -/
def comment2 : Comment :=
  ⟨"c2", "p1", "u2", "reply", [], epoch, epoch, some "c1"⟩

/-- The sample post's comment list: a root comment and one reply. -/
def demoComments : List Comment := [comment1, comment2]

/-! ### Helper lemmas about the parent-link walk -/

/-- Unfolds one walk step when the id is absent from the comment list. -/
theorem chain_succ_none {cs : List Comment} {i : String} (f : Nat)
    (h : lookup cs i = none) : chain cs (f + 1) i = [] := by
  simp [chain, h]

/-- Unfolds one walk step at a comment with no parent. -/
theorem chain_succ_leaf {cs : List Comment} {i : String} {c : Comment} (f : Nat)
    (h : lookup cs i = some c) (hp : c.parentId = none) :
    chain cs (f + 1) i = [i] := by
  simp [chain, h, hp]

/-- Unfolds one walk step at a comment with a parent. -/
theorem chain_succ_step {cs : List Comment} {i : String} {c : Comment}
    {p : String} (f : Nat) (h : lookup cs i = some c)
    (hp : c.parentId = some p) :
    chain cs (f + 1) i = i :: chain cs f p := by
  simp [chain, h, hp]

/-- A walk never lists more ids than it has fuel. -/
theorem chain_length_le_fuel (cs : List Comment) :
    ∀ fuel i, (chain cs fuel i).length ≤ fuel := by
  intro fuel
  induction fuel with
  | zero => intro i; simp [chain]
  | succ f ih =>
    intro i
    cases h : lookup cs i with
    | none => simp [chain_succ_none f h]
    | some c =>
      cases hp : c.parentId with
      | none => simp [chain_succ_leaf f h hp]
      | some p =>
        rw [chain_succ_step f h hp]
        simpa using Nat.succ_le_succ (ih p)

/-- Adding fuel only extends a walk: membership is preserved. -/
theorem chain_mem_succ (cs : List Comment) :
    ∀ fuel i x, x ∈ chain cs fuel i → x ∈ chain cs (fuel + 1) i := by
  intro fuel
  induction fuel with
  | zero => intro i x hx; simp [chain] at hx
  | succ f ih =>
    intro i x hx
    cases h : lookup cs i with
    | none => rw [chain_succ_none f h] at hx; simp at hx
    | some c =>
      cases hp : c.parentId with
      | none =>
        rw [chain_succ_leaf f h hp] at hx
        rw [chain_succ_leaf (f + 1) h hp]
        exact hx
      | some p =>
        rw [chain_succ_step f h hp] at hx
        rw [chain_succ_step (f + 1) h hp]
        rcases List.mem_cons.mp hx with rfl | hx
        · exact List.mem_cons_self _ _
        · exact List.mem_cons_of_mem _ (ih p x hx)

/-- Membership in a walk is monotone in the fuel. -/
theorem chain_mem_le (cs : List Comment) {f g : Nat} (hfg : f ≤ g) :
    ∀ i x, x ∈ chain cs f i → x ∈ chain cs g i := by
  induction g with
  | zero =>
    intro i x hx
    rw [Nat.le_zero.mp hfg] at hx
    simp [chain] at hx
  | succ g ih =>
    intro i x hx
    rcases Nat.lt_or_ge f (g + 1) with hlt | hge
    · exact chain_mem_succ cs g i x (ih (Nat.lt_succ_iff.mp hlt) i x hx)
    · exact (Nat.le_antisymm hfg hge) ▸ hx

/-- Every id a walk lists is the id of some comment on the post. -/
theorem chain_mem_ids (cs : List Comment) :
    ∀ fuel i x, x ∈ chain cs fuel i → ∃ c ∈ cs, c.id = x := by
  intro fuel
  induction fuel with
  | zero => intro i x hx; simp [chain] at hx
  | succ f ih =>
    intro i x hx
    cases h : lookup cs i with
    | none => rw [chain_succ_none f h] at hx; simp at hx
    | some c =>
      have hcmem : c ∈ cs := List.mem_of_find?_eq_some h
      have hcid : c.id = i := by
        have := List.find?_some h
        simpa using this
      cases hp : c.parentId with
      | none =>
        rw [chain_succ_leaf f h hp] at hx
        simp at hx
        exact ⟨c, hcmem, hx ▸ hcid⟩
      | some p =>
        rw [chain_succ_step f h hp] at hx
        rcases List.mem_cons.mp hx with rfl | hx
        · exact ⟨c, hcmem, hcid⟩
        · exact ih p x hx

/-- Unfolding `selfAncestorFreeB`: a checked list's comments avoid their own
parent walk. -/
theorem selfAncestorFreeB_spec {cs : List Comment}
    (hsaf : selfAncestorFreeB cs = true) :
    ∀ c ∈ cs, ∀ p, c.parentId = some p →
      c.id ∉ chain cs (cs.length + 1) p := by
  intro c hc p hp
  have hall := (List.all_eq_true).mp hsaf c hc
  rw [hp] at hall
  simpa using hall

/-- Under the acyclicity check, walks with fuel up to `cs.length + 1` list
pairwise-distinct ids. -/
theorem chain_nodup (cs : List Comment) (hsaf : selfAncestorFreeB cs = true) :
    ∀ fuel, fuel ≤ cs.length + 1 → ∀ i, (chain cs fuel i).Nodup := by
  intro fuel
  induction fuel with
  | zero => intro _ i; simp [chain]
  | succ f ih =>
    intro hle i
    cases h : lookup cs i with
    | none => rw [chain_succ_none f h]; simp
    | some c =>
      cases hp : c.parentId with
      | none => rw [chain_succ_leaf f h hp]; simp
      | some p =>
        rw [chain_succ_step f h hp]
        refine List.Nodup.cons ?_ (ih (Nat.le_of_succ_le hle) p)
        intro hmem
        have hcmem : c ∈ cs := List.mem_of_find?_eq_some h
        have hcid : c.id = i := by
          have := List.find?_some h
          simpa using this
        have hK : i ∈ chain cs (cs.length + 1) p :=
          chain_mem_le cs (Nat.le_of_succ_le hle) p i hmem
        exact selfAncestorFreeB_spec hsaf c hcmem p hp (hcid ▸ hK)

/-- A walk shorter than its fuel is already complete: more fuel changes
nothing. -/
theorem chain_stable (cs : List Comment) :
    ∀ fuel i, (chain cs fuel i).length < fuel →
      chain cs (fuel + 1) i = chain cs fuel i := by
  intro fuel
  induction fuel with
  | zero => intro i h; simp [chain] at h
  | succ f ih =>
    intro i h
    cases hl : lookup cs i with
    | none => rw [chain_succ_none (f + 1) hl, chain_succ_none f hl]
    | some c =>
      cases hp : c.parentId with
      | none => rw [chain_succ_leaf (f + 1) hl hp, chain_succ_leaf f hl hp]
      | some p =>
        rw [chain_succ_step f hl hp] at h
        simp only [List.length_cons, Nat.succ_lt_succ_iff] at h
        rw [chain_succ_step (f + 1) hl hp, chain_succ_step f hl hp, ih p h]

/-! ### Claim theorems -/

/-- C10: the App component's counter button handler maps a count `n` to
`n + 1` for every integer `n`; starting from the initial count 0, after `k`
clicks the count equals `k`, and the count never decreases across clicks. -/
theorem app_counter_increments :
    (∀ n : Int, increment n = n + 1) ∧
    countAfter 0 = 0 ∧
    (∀ k : Nat, countAfter k = k) ∧
    (∀ k : Nat, countAfter k ≤ countAfter (k + 1)) := by
  have hval : ∀ k : Nat, countAfter k = k := by
    intro k
    induction k with
    | zero => rfl
    | succ k ih =>
      show increment (countAfter k) = ((k + 1 : Nat) : Int)
      rw [ih, increment]
      push_cast
      ring
  refine ⟨fun n => rfl, rfl, hval, fun k => ?_⟩
  rw [hval k, hval (k + 1)]
  exact_mod_cast Nat.le_succ k

/-- C4: the enumerated tag sets of the data model are closed and exactly as
given: every value of each tag type is one of the listed alternatives, and a
string is the tag of some alternative exactly when it is one of the listed
literals. -/
theorem enum_tags_closed :
    (∀ t : MessageType, t = .text ∨ t = .image ∨ t = .file) ∧
    (∀ t : NotificationType,
      t = .like ∨ t = .comment ∨ t = .follow ∨ t = .mention ∨ t = .message) ∧
    (∀ t : SearchType, t = .users ∨ t = .posts ∨ t = .all) ∧
    (∀ t : SortBy, t = .recent ∨ t = .popular ∨ t = .relevance) ∧
    (∀ s : String, (∃ t : MessageType, t.toTag = s) ↔
      s = "text" ∨ s = "image" ∨ s = "file") ∧
    (∀ s : String, (∃ t : NotificationType, t.toTag = s) ↔
      s = "like" ∨ s = "comment" ∨ s = "follow" ∨ s = "mention" ∨
        s = "message") ∧
    (∀ s : String, (∃ t : SearchType, t.toTag = s) ↔
      s = "users" ∨ s = "posts" ∨ s = "all") ∧
    (∀ s : String, (∃ t : SortBy, t.toTag = s) ↔
      s = "recent" ∨ s = "popular" ∨ s = "relevance") := by
  refine ⟨fun t => ?_, fun t => ?_, fun t => ?_, fun t => ?_,
    fun s => ⟨?_, ?_⟩, fun s => ⟨?_, ?_⟩, fun s => ⟨?_, ?_⟩, fun s => ⟨?_, ?_⟩⟩
  · cases t <;> simp
  · cases t <;> simp
  · cases t <;> simp
  · cases t <;> simp
  · rintro ⟨t, rfl⟩; cases t <;> simp [MessageType.toTag]
  · rintro (rfl | rfl | rfl)
    exacts [⟨.text, rfl⟩, ⟨.image, rfl⟩, ⟨.file, rfl⟩]
  · rintro ⟨t, rfl⟩; cases t <;> simp [NotificationType.toTag]
  · rintro (rfl | rfl | rfl | rfl | rfl)
    exacts [⟨.like, rfl⟩, ⟨.comment, rfl⟩, ⟨.follow, rfl⟩, ⟨.mention, rfl⟩,
      ⟨.message, rfl⟩]
  · rintro ⟨t, rfl⟩; cases t <;> simp [SearchType.toTag]
  · rintro (rfl | rfl | rfl)
    exacts [⟨.users, rfl⟩, ⟨.posts, rfl⟩, ⟨.all, rfl⟩]
  · rintro ⟨t, rfl⟩; cases t <;> simp [SortBy.toTag]
  · rintro (rfl | rfl | rfl)
    exacts [⟨.recent, rfl⟩, ⟨.popular, rfl⟩, ⟨.relevance, rfl⟩]

/-- C5: a Message is accepted by the spec-modelled check exactly when its
sender and receiver differ, a Notification exactly when its recipient and
triggering user differ; records where the two ids coincide are rejected. -/
theorem message_notification_distinct_ids :
    (∀ m : Message, validMessageB m = true ↔ m.senderId ≠ m.receiverId) ∧
    (∀ n : Notification, validNotificationB n = true ↔
      n.userId ≠ n.fromUserId) ∧
    validMessageB selfMessage = false ∧
    validNotificationB selfNotification = false := by
  refine ⟨fun m => ?_, fun n => ?_, by decide, by decide⟩
  · simp [validMessageB]
  · simp [validNotificationB]

/-- C6: a Post is accepted by the spec-modelled check exactly when its share
count is a non-negative integer and its like-list entries are pairwise
distinct; a post with a negative share count, or with a repeated liker id, is
rejected. -/
theorem post_shares_likes_invariant :
    (∀ p : Post, validPostB p = true ↔
      0 ≤ p.shares ∧ p.likes.Pairwise (· ≠ ·)) ∧
    (∃ p : Post, p.shares = -1 ∧ validPostB p = false) ∧
    (∃ p : Post, p.likes = ["u1", "u1"] ∧ validPostB p = false) := by
  refine ⟨fun p => ?_, ?_, ?_⟩
  · simp [validPostB, List.Nodup]
  · exact ⟨⟨"p1", "u1", "", none, [], [], -1, epoch, epoch, true, none⟩,
      rfl, by decide⟩
  · exact ⟨⟨"p2", "u1", "", none, ["u1", "u1"], [], 0, epoch, epoch,
      true, none⟩, rfl, by decide⟩

/-- C7: an ApiResponse is accepted by the spec-modelled check exactly when
precisely one of the payload and the error text is populated; envelopes with
both absent, or both present, are rejected. -/
theorem api_response_exclusive_payload :
    (∀ (α : Type) (r : ApiResponse α), validApiResponseB r = true ↔
      ((∃ a, r.data = some a) ∧ r.error = none) ∨
        (r.data = none ∧ ∃ e, r.error = some e)) ∧
    (∃ r : ApiResponse Nat, r.data = none ∧ r.error = none ∧
      validApiResponseB r = false) ∧
    (∃ r : ApiResponse Nat, r.data = some 1 ∧ r.error = some "boom" ∧
      validApiResponseB r = false) := by
  refine ⟨fun α r => ?_, ?_, ?_⟩
  · cases hd : r.data <;> cases he : r.error <;>
      simp [validApiResponseB, hd, he, Bool.xor]
  · exact ⟨⟨true, none, none, none⟩, rfl, rfl, rfl⟩
  · exact ⟨⟨false, some 1, some "boom", none⟩, rfl, rfl, rfl⟩

/-- C8: a User is accepted by the spec-modelled check exactly when its own id
appears in neither its followers list nor its following list; a user listed
among its own followers is rejected. -/
theorem user_not_self_follower :
    (∀ u : User, validUserB u = true ↔
      u.id ∉ u.followers ∧ u.id ∉ u.following) ∧
    (∃ u : User, u.id ∈ u.followers ∧ validUserB u = false) := by
  refine ⟨fun u => ?_, ?_⟩
  · simp [validUserB]
  · exact ⟨⟨"u1", "a", "e", "f", "l", none, none, none, ["u1"], [],
      epoch, epoch, false, none, none⟩, by decide, by decide⟩

/-- C9: the optional fields of User are exactly `bio`, `avatar`,
`coverImage`, `location`, `website`: a user can be built from the required
fields alone with all five absent (and the required fields preserved), an
absent optional field differs from one holding the empty string, all five can
simultaneously be present, and Post's optional `images` / `tags` behave the
same way. -/
theorem user_optional_fields :
    (∀ id username email firstName lastName followers following createdAt
        updatedAt isVerified,
      let u := User.minimal id username email firstName lastName followers
        following createdAt updatedAt isVerified
      u.bio = none ∧ u.avatar = none ∧ u.coverImage = none ∧
        u.location = none ∧ u.website = none ∧ u.bio ≠ some "" ∧
        u.id = id ∧ u.username = username ∧ u.email = email ∧
        u.firstName = firstName ∧ u.lastName = lastName ∧
        u.followers = followers ∧ u.following = following ∧
        u.createdAt = createdAt ∧ u.updatedAt = updatedAt ∧
        u.isVerified = isVerified) ∧
    (∃ u : User, u.bio = some "b" ∧ u.avatar = some "a" ∧
      u.coverImage = some "c" ∧ u.location = some "l" ∧
      u.website = some "w") ∧
    (∃ p : Post, p.images = none ∧ p.tags = none) ∧
    (∃ p : Post, p.images = some ["i"] ∧ p.tags = some ["t"]) := by
  refine ⟨?_, ?_, ?_, ?_⟩
  · intro id username email firstName lastName followers following createdAt
      updatedAt isVerified
    exact ⟨rfl, rfl, rfl, rfl, rfl, by simp [User.minimal], rfl, rfl, rfl,
      rfl, rfl, rfl, rfl, rfl, rfl, rfl⟩
  · exact ⟨⟨"u2", "n", "e", "f", "l", some "b", some "a", some "c", [], [],
      epoch, epoch, true, some "l", some "w"⟩, rfl, rfl, rfl, rfl, rfl⟩
  · exact ⟨⟨"p3", "u1", "", none, [], [], 0, epoch, epoch, true, none⟩,
      rfl, rfl⟩
  · exact ⟨⟨"p4", "u1", "", some ["i"], [], [], 0, epoch, epoch, true,
      some ["t"]⟩, rfl, rfl⟩

/-- C2 counterexample: a group conversation with a single participant passes
the spec-modelled Conversation check (the spec's invariant table requires
only non-emptiness when the group flag is true), so the claimed lower bound
of 2 participants for group conversations fails. -/
theorem conversation_claim_counterexample :
    validConversationB groupOfOne = true ∧ groupOfOne.isGroup = true ∧
      groupOfOne.participants.length = 1 ∧
      ¬(2 ≤ groupOfOne.participants.length) := by
  decide

/-- C2 (amended): a Conversation is accepted by the spec-modelled check
exactly when its participants list is non-empty and, if the group flag is
false, has exactly 2 elements (when the flag is true only non-emptiness is
required); a two-party conversation with a single participant is rejected. -/
theorem conversation_invariant :
    (∀ c : Conversation, validConversationB c = true ↔
      (c.participants ≠ [] ∧
        (c.isGroup = false → c.participants.length = 2))) ∧
    (∃ c : Conversation, c.isGroup = false ∧ c.participants.length = 1 ∧
      validConversationB c = false) := by
  refine ⟨fun c => ?_, ?_⟩
  · cases hg : c.isGroup <;> simp [validConversationB, hg]
  · exact ⟨⟨"conv2", ["u1"], none, epoch, epoch, false, none, none⟩,
      rfl, rfl, by decide⟩

/-- C1: a PaginatedResponse with positive page size is accepted by the
spec-modelled check exactly when `totalPages = ceil(total / limit)` and
`0 ≤ page ≤ totalPages`; with `total = 95` and `limit = 20` the total page
count is 5, pages 0 through 5 are accepted, and page 6 is rejected. -/
theorem paginated_response_invariant (α : Type) (r : PaginatedResponse α)
    (_hl : 0 < r.pagination.limit) :
    (validPaginatedB r = true ↔
      (r.pagination.totalPages
          = ceilDiv r.pagination.total r.pagination.limit ∧
        0 ≤ r.pagination.page ∧
        r.pagination.page ≤ r.pagination.totalPages)) ∧
    ceilDiv 95 20 = 5 ∧
    (∀ page : Nat, page ≤ 5 → validPaginationB ⟨page, 20, 95, 5⟩ = true) ∧
    validPaginationB ⟨6, 20, 95, 5⟩ = false := by
  refine ⟨?_, by decide, ?_, by decide⟩
  · simp [validPaginatedB, validPaginationB]
  · intro page hpg
    simp [validPaginationB, ceilDiv, hpg]

/-- Witness for C1: the invariant theorem instantiated at the spec's worked
example (`total = 95`, `limit = 20`, `totalPages = 5`, `page = 0`). -/
theorem paginated_response_invariant_witness :
    (validPaginatedB samplePage = true ↔
      (samplePage.pagination.totalPages
          = ceilDiv samplePage.pagination.total samplePage.pagination.limit ∧
        0 ≤ samplePage.pagination.page ∧
        samplePage.pagination.page ≤ samplePage.pagination.totalPages)) ∧
    ceilDiv 95 20 = 5 ∧
    (∀ page : Nat, page ≤ 5 → validPaginationB ⟨page, 20, 95, 5⟩ = true) ∧
    validPaginationB ⟨6, 20, 95, 5⟩ = false :=
  paginated_response_invariant Nat samplePage (by decide)

/-- C3: on a comment list that passes the spec-modelled acyclicity check, the
parent-link walk from any comment lists pairwise-distinct ids (no comment is
revisited), its length is bounded by the total number of comments, and it is
unchanged by any further fuel beyond the comment count (the walk
terminates). -/
theorem comment_chain_acyclic_bound (cs : List Comment) (c : Comment)
    (hsaf : selfAncestorFreeB cs = true) (_hc : c ∈ cs) :
    (chain cs (cs.length + 1) c.id).Nodup ∧
    (chain cs (cs.length + 1) c.id).length ≤ cs.length ∧
    ∀ f, chain cs (cs.length + 1 + f) c.id
      = chain cs (cs.length + 1) c.id := by
  have hnd : (chain cs (cs.length + 1) c.id).Nodup :=
    chain_nodup cs hsaf _ le_rfl _
  have hsub : ∀ x ∈ chain cs (cs.length + 1) c.id, x ∈ cs.map Comment.id := by
    intro x hx
    rcases chain_mem_ids cs _ _ _ hx with ⟨d, hd, hdx⟩
    exact hdx ▸ List.mem_map_of_mem Comment.id hd
  have hlen : (chain cs (cs.length + 1) c.id).length ≤ cs.length := by
    have := (List.subperm_of_subset hnd hsub).length_le
    simpa using this
  refine ⟨hnd, hlen, ?_⟩
  intro f
  induction f with
  | zero => rfl
  | succ g ih =>
    have hlt : (chain cs (cs.length + 1 + g) c.id).length
        < cs.length + 1 + g := by
      rw [ih]
      exact Nat.lt_of_le_of_lt hlen (by omega)
    have hst := chain_stable cs (cs.length + 1 + g) c.id hlt
    calc chain cs (cs.length + 1 + (g + 1)) c.id
        = chain cs ((cs.length + 1 + g) + 1) c.id := by ring_nf
      _ = chain cs (cs.length + 1 + g) c.id := hst
      _ = chain cs (cs.length + 1) c.id := ih

/-- Witness for C3: the reply chain of the sample post (a root comment and
one reply) passes the acyclicity check, and the walk from the reply is
duplicate-free, bounded by the comment count, and stable. -/
theorem comment_chain_acyclic_bound_witness :
    selfAncestorFreeB demoComments = true ∧ comment2 ∈ demoComments ∧
    ((chain demoComments (demoComments.length + 1) comment2.id).Nodup ∧
      (chain demoComments (demoComments.length + 1) comment2.id).length
        ≤ demoComments.length ∧
      ∀ f, chain demoComments (demoComments.length + 1 + f) comment2.id
        = chain demoComments (demoComments.length + 1) comment2.id) :=
  ⟨by decide, by decide,
    comment_chain_acyclic_bound demoComments comment2 (by decide) (by decide)⟩

end SocialApp
